import Mathlib

/-!
# Verification of the ez-rtc connection state machine

Shallow embedding of the `Connection` class of `src/demo/index.ts`
(the `export default class` with fields `state`, `connection`, `channel`,
`warnings`, `statusChange`, `message`).

Modelling decisions, documented once here:

* The broadcast primitives (`Emitter`, `SafeEmitter` from the external
  `fancy-emitter` package) are modelled from the spec, section 4.1: a stream
  is a list of published values plus an at-most-once terminal event
  (`cancel` = success, `deactivate(error)` = failure); after a terminal
  event no further values are published and the terminal event never
  changes.
* The opaque `RTCPeerConnection` transport is modelled by the events it can
  deliver to the handlers the constructor registers
  (`icegatheringstatechange`, `negotiationneeded`, `icecandidateerror`,
  `connectionstatechange`, `datachannel`) plus the four listeners
  `bindChannel` attaches to a data channel (`open`, `message`, `error`,
  `close`).  Data channels are identified by natural numbers.  A channel
  event is delivered only if the code attached listeners to that channel
  (`wired`) and the channel has not been closed by the code
  (`closedChannels`); no ordering between transport events is assumed.
* Asynchronous listener dispatch (`fancy-emitter` delivers on microtasks)
  is flattened to synchronous state update: no handler of the source reads
  `this.state` after publishing within the same synchronous run, so this
  is observation-equivalent for the handlers modelled here.
* `send` reads `this.connection.sctp` at call time; the descriptor the
  transport exposes is carried in the `sctp` field, refreshed by the
  gathering-state event (the code reads it from the same
  `this.connection`).
-/

set_option autoImplicit false

namespace EzRtc

/-- The `State` enumeration of `src/demo/index.ts`. -/
inductive State where
  | OFFLINE
  | CAN_OFFER
  | CONNECTING
  | READY
  | CONNECTED
deriving DecidableEq, Repr

/-- Entries of the `warnings` array.  The source pushes the
`icecandidateerror` event object, a string for the connection-state
anomalies, and an `Error` naming the unexpected state for a repeated
negotiation-needed notification. -/
inductive Warning where
  | iceCandidateError
  | connectionStateWarning (s : String)
  | negotiationUnexpected (current : State)
deriving DecidableEq, Repr

/-- The error object built by `fail(message, error)`: the underlying cause,
the human readable `layman` message attached to it, and the accumulated
warning list attached to it. -/
structure ConnError where
  cause : String
  layman : String
  warnings : List Warning
deriving DecidableEq, Repr

/-- Terminal event of the status stream. -/
inductive EmitterEnd where
  | cancelled
  | deactivated (e : ConnError)
deriving DecidableEq, Repr

/-- Modelled from the spec: the status-stream flavour of the Event Broadcast
Primitive (spec section 4.1, implemented by the external `fancy-emitter`
package, whose source is not part of this repository): values are broadcast
in publication order and the stream carries at most one terminal event,
either success (`cancel`) or failure (`deactivate`); after a terminal event
no further values are delivered. -/
structure Emitter (α : Type) where
  published : List α
  terminal : Option EmitterEnd
deriving DecidableEq, Repr

/-- Modelled from the spec: publishing a value (absorbed after a terminal
event, spec section 4.1). -/
def Emitter.activate {α : Type} (em : Emitter α) (x : α) : Emitter α :=
  if em.terminal = none then { em with published := em.published ++ [x] } else em

/-- Modelled from the spec: terminal success, at most once. -/
def Emitter.cancel {α : Type} (em : Emitter α) : Emitter α :=
  if em.terminal = none then { em with terminal := some EmitterEnd.cancelled } else em

/-- Modelled from the spec: terminal failure, at most once. -/
def Emitter.deactivate {α : Type} (em : Emitter α) (e : ConnError) : Emitter α :=
  if em.terminal = none then { em with terminal := some (EmitterEnd.deactivated e) } else em

/-- Modelled from the spec: the message-stream flavour of the broadcast
primitive — same broadcast behaviour but it has no failure terminal, only
`cancel` (spec sections 4.1 and 6). -/
structure SafeEmitter (α : Type) where
  published : List α
  cancelled : Bool
deriving DecidableEq, Repr

/-- Modelled from the spec: publishing on the message stream. -/
def SafeEmitter.activate {α : Type} (em : SafeEmitter α) (x : α) : SafeEmitter α :=
  if em.cancelled then em else { em with published := em.published ++ [x] }

/-- `RTCSctpTransport.state` values. -/
inductive SctpState where
  | connecting
  | connected
  | closed
deriving DecidableEq, Repr

/-- The message-transport descriptor `RTCPeerConnection.sctp`: its state and
the advertised `maxMessageSize`. -/
structure Sctp where
  state : SctpState
  maxMessageSize : Nat
deriving DecidableEq, Repr

/-- `RTCPeerConnection.iceGatheringState` values. -/
inductive IceGatheringState where
  | new
  | gathering
  | complete
deriving DecidableEq, Repr

/-- `RTCPeerConnection.connectionState` values. -/
inductive RTCConnectionState where
  | new
  | connecting
  | connected
  | disconnected
  | failed
  | closed
deriving DecidableEq, Repr

/-- The `Sendable` payload union of the source
(`string | Blob | ArrayBuffer | ArrayBufferView`), carrying exactly the
size information `send` computes. -/
inductive Sendable where
  | str (s : String)
  | blob (size : Nat)
  | arrayBuffer (byteLength : Nat)
  | view (byteLength : Nat)
deriving DecidableEq, Repr

/-- Payload size as computed by `send`: character count for strings,
`byteLength` for buffers and views, `size` for blobs. -/
def Sendable.size : Sendable → Nat
  | Sendable.str s => s.length
  | Sendable.blob n => n
  | Sendable.arrayBuffer n => n
  | Sendable.view n => n

/-- Outcome of the shared `createSDP` routine, lines 222-241:
`negotiate` is the gated branch (create a description, install it, await
READY on the status stream, then return the local description);
`immediate` is the ungated branch: no creation, no wait, just return the
current `localDescription` (the source asserts it non-null with `!`, an
assertion that is erased at runtime, so the value is returned as-is). -/
inductive SDPBehavior where
  | negotiate
  | immediate (d : Option Nat)
deriving DecidableEq, Repr

/-- The `Connection` class state (fields of the class, plus the parts of
the transport and channel objects it owns and observes).  `wired` and
`binaryTypeArraybuffer` record the channels `bindChannel` attached its four
listeners to and forced to `'arraybuffer'` binary type; `closedChannels`
records the channels `close()` has been called on; `connectionClosed`
records `this.connection.close()`; `nextChannelId` supplies fresh ids for
`createDataChannel` and `createdChannels` counts its invocations. -/
structure Connection where
  state : State
  channel : Option Nat
  warnings : List Warning
  statusChange : Emitter State
  message : SafeEmitter Sendable
  wired : List Nat
  binaryTypeArraybuffer : List Nat
  closedChannels : List Nat
  connectionClosed : Bool
  sctp : Option Sctp
  localDescription : Option Nat
  remoteDescriptionSet : Bool
  sctpListenersAttached : Bool
  nextChannelId : Nat
  createdChannels : Nat
deriving DecidableEq, Repr

/-- Append an element to a set-like list if absent (models closing an
already-closed handle or re-attaching listeners as a no-op). -/
def pushUnique (l : List Nat) (x : Nat) : List Nat :=
  if x ∈ l then l else l ++ [x]

/-- `statusChange.activate(s)` together with the subscribed
`.on(newState => this.state = newState)` of the constructor (line 148):
when the stream is live the value is published and `state` updated. -/
def Connection.activate (c : Connection) (s : State) : Connection :=
  if c.statusChange.terminal = none then
    { c with statusChange := c.statusChange.activate s, state := s }
  else c

/-- `statusChange.deactivate(e)` together with the subscribed
`.catch(() => this.state = State.OFFLINE)` of the constructor (line 149). -/
def Connection.deactivate (c : Connection) (e : ConnError) : Connection :=
  if c.statusChange.terminal = none then
    { c with statusChange := c.statusChange.deactivate e, state := State.OFFLINE }
  else c

/-- `statusChange.cancel()`: graceful termination of the status stream (the
`.catch` subscriber fires only on failure, so `state` is untouched). -/
def Connection.cancelStatus (c : Connection) : Connection :=
  { c with statusChange := c.statusChange.cancel }

/-- `close()`, lines 186-194: publish `OFFLINE` and cancel the status
stream, close the bound channel if any, close the transport. -/
def Connection.close (c : Connection) : Connection :=
  let c1 := (c.activate State.OFFLINE).cancelStatus
  { c1 with
    closedChannels :=
      match c1.channel with
      | some ch => pushUnique c1.closedChannels ch
      | none => c1.closedChannels,
    connectionClosed := true }

/-- `fail(message, error = Error(message))`, lines 313-320: attach the
layman message and the accumulated warnings to the cause, deactivate the
status stream with it, then `close()`. -/
def Connection.fail (c : Connection) (layman : String) (cause : String) : Connection :=
  (c.deactivate { cause := cause, layman := layman, warnings := c.warnings }).close

/-- `bindChannel(channel)`, lines 244-255: a second bind is routed to
`fail`, a first bind stores the channel; in both cases the binary type is
forced to `'arraybuffer'` and the `open`/`message`/`error`/`close`
listeners are attached to the incoming channel. -/
def Connection.bindChannel (c : Connection) (ch : Nat) : Connection :=
  let c1 :=
    match c.channel with
    | some _ => c.fail "Can not rebind a new data channel." "Can not rebind a new data channel."
    | none => { c with channel := some ch }
  { c1 with
    binaryTypeArraybuffer := pushUnique c1.binaryTypeArraybuffer ch,
    wired := pushUnique c1.wired ch }

/-- The `icegatheringstatechange` handler, lines 257-285, reading the
current `iceGatheringState` and `sctp` of the transport.  Note that in the
`'complete'` branch with a closed descriptor the code publishes `OFFLINE`
and cancels, then still attaches the SCTP-transport listeners and calls
`activate(State.READY)` (absorbed by the already-terminated stream). -/
def Connection.iceGatheringStateChange (c : Connection) (gs : IceGatheringState) : Connection :=
  match gs with
  | IceGatheringState.new => c
  | IceGatheringState.gathering => c.activate State.CONNECTING
  | IceGatheringState.complete =>
    match c.sctp with
    | some s =>
      let c1 := if s.state = SctpState.closed then (c.activate State.OFFLINE).cancelStatus else c
      let c2 := { c1 with sctpListenersAttached := true }
      c2.activate State.READY
    | none =>
      c.fail "STCP Transport protocol should be set once gathering state is complete"
        "STCP Transport protocol should be set once gathering state is complete"

/-- The `connectionstatechange` handler, lines 291-305. -/
def Connection.connectionStateChange (c : Connection) (cs : RTCConnectionState) : Connection :=
  match cs with
  | RTCConnectionState.new => c.activate State.OFFLINE
  | RTCConnectionState.disconnected =>
    { c with warnings := c.warnings ++ [Warning.connectionStateWarning "disconnected"] }
  | RTCConnectionState.failed =>
    { c with warnings := c.warnings ++ [Warning.connectionStateWarning "failed"] }
  | RTCConnectionState.closed => (c.activate State.OFFLINE).cancelStatus
  | RTCConnectionState.connecting => c
  | RTCConnectionState.connected => c

/-- The `negotiationneeded` handler, lines 307-311: `CAN_OFFER` when
`OFFLINE`, otherwise push a warning naming the unexpected current state. -/
def Connection.negotiationNeeded (c : Connection) : Connection :=
  if c.state = State.OFFLINE then c.activate State.CAN_OFFER
  else { c with warnings := c.warnings ++ [Warning.negotiationUnexpected c.state] }

/-- The synchronous prefix of `createOffer`, lines 200-205: if no channel
is bound yet, create a fresh data channel and bind it (the remainder of
`createOffer` awaits `CAN_OFFER` and runs `createSDP`, which publishes
nothing synchronously). -/
def Connection.createOffer (c : Connection) : Connection :=
  match c.channel with
  | none =>
    let ch := c.nextChannelId
    let c1 := { c with nextChannelId := c.nextChannelId + 1, createdChannels := c.createdChannels + 1 }
    c1.bindChannel ch
  | some _ => c

/-- `acceptSDP(sdp)`, lines 214-220: install the remote description; a
transport rejection is routed to `fail`. -/
def Connection.acceptSDP (c : Connection) (ok : Bool) : Connection :=
  if ok then { c with remoteDescriptionSet := true }
  else c.fail "Unable to accept SDP" "setRemoteDescription rejected"

/-- The branch decision of `createSDP`, lines 222-241: negotiate only when
the current state is `OFFLINE` or `CAN_OFFER`, otherwise immediately return
the current local description. -/
def Connection.createSDP (c : Connection) : SDPBehavior :=
  if c.state = State.OFFLINE ∨ c.state = State.CAN_OFFER then SDPBehavior.negotiate
  else SDPBehavior.immediate c.localDescription

/-- Whether a channel event on `ch` is delivered to the listeners the code
attached: listeners must have been attached and the code must not have
closed the channel. -/
def Connection.deliverable (c : Connection) (ch : Nat) : Bool :=
  c.wired.contains ch && !(c.closedChannels.contains ch)

/-- The `open` listener attached in `bindChannel` (line 251). -/
def Connection.channelOpen (c : Connection) (ch : Nat) : Connection :=
  if c.deliverable ch then c.activate State.CONNECTED else c

/-- The `message` listener attached in `bindChannel` (line 252). -/
def Connection.channelMessage (c : Connection) (ch : Nat) (d : Sendable) : Connection :=
  if c.deliverable ch then { c with message := c.message.activate d } else c

/-- The `error` listener attached in `bindChannel` (line 253). -/
def Connection.channelError (c : Connection) (ch : Nat) (msg : String) : Connection :=
  if c.deliverable ch then c.fail "Data channel broken" msg else c

/-- The `close` listener attached in `bindChannel` (line 254): the
channel's close drives the whole connection's `close()`. -/
def Connection.channelClose (c : Connection) (ch : Nat) : Connection :=
  if c.deliverable ch then c.close else c

/-- `send(data)`, lines 166-184: synchronous error when not `CONNECTED`,
when the computed size is out of `[1, sctp.maxMessageSize]`, or when a
non-null assertion (`sctp!`, `channel!`) fails at runtime; otherwise the
payload is handed to the bound channel. -/
def Connection.send (c : Connection) (data : Sendable) : Except String (Nat × Sendable) :=
  if c.state ≠ State.CONNECTED then
    Except.error "Unable to send data before a channel has been established."
  else
    match c.sctp with
    | none => Except.error "TypeError: this.connection.sctp is null"
    | some s =>
      if 1 > data.size ∨ data.size > s.maxMessageSize then
        Except.error "Attempted to send out of the supported size range."
      else
        match c.channel with
        | some ch => Except.ok (ch, data)
        | none => Except.error "TypeError: this.channel is undefined"

/-- One externally observable occurrence: a transport event delivered to a
registered handler, a channel event delivered to an attached listener, or a
call of one of the public operations that synchronously touches the
connection state. -/
inductive Ev where
  | iceGatheringStateChange (gs : IceGatheringState) (sctp : Option Sctp)
  | negotiationNeeded
  | iceCandidateError
  | connectionStateChange (cs : RTCConnectionState)
  | dataChannel (ch : Nat)
  | channelOpen (ch : Nat)
  | channelMessage (ch : Nat) (d : Sendable)
  | channelError (ch : Nat) (msg : String)
  | channelClose (ch : Nat)
  | callClose
  | callCreateOffer
  | callAcceptSDP (ok : Bool)
  | callCreateSDPReject
deriving DecidableEq, Repr

/-- Dispatch one event to the handler the source registers for it.  The
gathering event also refreshes the observed `sctp` descriptor, which the
handler reads from `this.connection` at handler time. -/
def step (c : Connection) : Ev → Connection
  | Ev.iceGatheringStateChange gs sctp => Connection.iceGatheringStateChange { c with sctp := sctp } gs
  | Ev.negotiationNeeded => c.negotiationNeeded
  | Ev.iceCandidateError => { c with warnings := c.warnings ++ [Warning.iceCandidateError] }
  | Ev.connectionStateChange cs => c.connectionStateChange cs
  | Ev.dataChannel ch => c.bindChannel ch
  | Ev.channelOpen ch => c.channelOpen ch
  | Ev.channelMessage ch d => c.channelMessage ch d
  | Ev.channelError ch msg => c.channelError ch msg
  | Ev.channelClose ch => c.channelClose ch
  | Ev.callClose => c.close
  | Ev.callCreateOffer => c.createOffer
  | Ev.callAcceptSDP ok => c.acceptSDP ok
  | Ev.callCreateSDPReject => c.fail "Unable to create SDP" "description rejected"

/-- Run a sequence of events. -/
def runEvents (c : Connection) (evs : List Ev) : Connection :=
  evs.foldl step c

/-- A freshly, successfully constructed `Connection` (lines 132-164): state
`OFFLINE`, no channel, empty warnings, both streams live and empty.  A
construction failure is `initConnection.fail "Unable to create a RTC Connection" e`. -/
def initConnection : Connection :=
  { state := State.OFFLINE
    channel := none
    warnings := []
    statusChange := { published := [], terminal := none }
    message := { published := [], cancelled := false }
    wired := []
    binaryTypeArraybuffer := []
    closedChannels := []
    connectionClosed := false
    sctp := none
    localDescription := none
    remoteDescriptionSet := false
    sctpListenersAttached := false
    nextChannelId := 0
    createdChannels := 0 }

/-- States reachable from a successful construction by some sequence of
transport events and operation calls. -/
def Reachable (c : Connection) : Prop :=
  ∃ evs : List Ev, runEvents initConnection evs = c

/-- A channel-open event. -/
def isChannelOpen : Ev → Bool
  | Ev.channelOpen _ => true
  | _ => false

/-- A gathering-complete notification with a present, non-closed
message-transport descriptor (the only branch that publishes `READY`). -/
def isHealthyComplete : Ev → Bool
  | Ev.iceGatheringStateChange IceGatheringState.complete (some s) => decide (s.state ≠ SctpState.closed)
  | _ => false

/-- `guarded b evs`: every channel-open event in `evs` is preceded (in the
trace, counting a prior `b = true`) by a healthy gathering-complete
notification. -/
def guarded : Bool → List Ev → Bool
  | _, [] => true
  | b, e :: rest => (!isChannelOpen e || b) && guarded (b || isHealthyComplete e) rest

/-! ## Basic lemmas about the broadcast primitives and handler compositions -/

theorem mem_pushUnique (l : List Nat) (x y : Nat) :
    x ∈ pushUnique l y ↔ (x ∈ l ∨ x = y) := by
  unfold pushUnique; split <;> simp_all

theorem activate_live (c : Connection) (s : State) (h : c.statusChange.terminal = none) :
    c.activate s = { c with
      statusChange := { published := c.statusChange.published ++ [s], terminal := none }
      state := s } := by
  simp [Connection.activate, Emitter.activate, h]

theorem activate_dead (c : Connection) (s : State) (h : c.statusChange.terminal ≠ none) :
    c.activate s = c := by
  simp [Connection.activate, h]

theorem deactivate_live (c : Connection) (e : ConnError) (h : c.statusChange.terminal = none) :
    c.deactivate e = { c with
      statusChange := { published := c.statusChange.published
                        terminal := some (EmitterEnd.deactivated e) }
      state := State.OFFLINE } := by
  simp [Connection.deactivate, Emitter.deactivate, h]

theorem deactivate_dead (c : Connection) (e : ConnError) (h : c.statusChange.terminal ≠ none) :
    c.deactivate e = c := by
  simp [Connection.deactivate, h]

theorem cancelStatus_live (c : Connection) (h : c.statusChange.terminal = none) :
    c.cancelStatus = { c with
      statusChange := { published := c.statusChange.published
                        terminal := some EmitterEnd.cancelled } } := by
  simp [Connection.cancelStatus, Emitter.cancel, h]

theorem cancelStatus_dead (c : Connection) (h : c.statusChange.terminal ≠ none) :
    c.cancelStatus = c := by
  simp [Connection.cancelStatus, Emitter.cancel, h]

theorem channel_activate (c : Connection) (s : State) : (c.activate s).channel = c.channel := by
  unfold Connection.activate; split <;> rfl

theorem channel_cancelStatus (c : Connection) : c.cancelStatus.channel = c.channel := rfl

theorem channel_deactivate (c : Connection) (e : ConnError) :
    (c.deactivate e).channel = c.channel := by
  unfold Connection.deactivate; split <;> rfl

theorem channel_close (c : Connection) : c.close.channel = c.channel := by
  unfold Connection.close
  simp [channel_cancelStatus, channel_activate]

theorem channel_fail (c : Connection) (m k : String) : (c.fail m k).channel = c.channel := by
  unfold Connection.fail
  simp [channel_close, channel_deactivate]

theorem channel_step_mono (e : Ev) (c : Connection) (ch : Nat) (h : c.channel = some ch) :
    (step c e).channel = some ch := by
  cases e with
  | iceGatheringStateChange gs sctp =>
    cases gs <;> cases sctp <;>
      simp_all [step, Connection.iceGatheringStateChange, channel_activate, channel_fail,
        channel_cancelStatus] <;> split_ifs <;>
      simp_all [channel_activate, channel_cancelStatus]
  | negotiationNeeded =>
    simp only [step, Connection.negotiationNeeded]
    split_ifs <;> simp_all [channel_activate]
  | iceCandidateError => simp_all [step]
  | connectionStateChange cs =>
    cases cs <;> simp_all [step, Connection.connectionStateChange, channel_activate,
      channel_cancelStatus]
  | dataChannel ch2 =>
    simp [step, Connection.bindChannel, channel_fail, h]
  | channelOpen ch2 =>
    simp only [step, Connection.channelOpen]
    split_ifs <;> simp_all [channel_activate]
  | channelMessage ch2 d =>
    simp only [step, Connection.channelMessage]
    split_ifs <;> simp_all
  | channelError ch2 m =>
    simp only [step, Connection.channelError]
    split_ifs <;> simp_all [channel_fail]
  | channelClose ch2 =>
    simp only [step, Connection.channelClose]
    split_ifs <;> simp_all [channel_close]
  | callClose => simp_all [step, channel_close]
  | callCreateOffer => simp_all [step, Connection.createOffer, h]
  | callAcceptSDP ok =>
    simp only [step, Connection.acceptSDP]
    split_ifs <;> simp_all [channel_fail]
  | callCreateSDPReject => simp_all [step, channel_fail]

theorem runEvents_append (c : Connection) (l1 l2 : List Ev) :
    runEvents c (l1 ++ l2) = runEvents (runEvents c l1) l2 := by
  simp [runEvents, List.foldl_append]

theorem channel_run_mono (evs : List Ev) (c : Connection) (ch : Nat) (h : c.channel = some ch) :
    (runEvents c evs).channel = some ch := by
  induction evs generalizing c with
  | nil => simpa [runEvents] using h
  | cons e rest ih => exact ih (step c e) (channel_step_mono e c ch h)



theorem created_activate (c : Connection) (s : State) :
    (c.activate s).createdChannels = c.createdChannels := by
  unfold Connection.activate; split <;> rfl

theorem created_cancelStatus (c : Connection) :
    c.cancelStatus.createdChannels = c.createdChannels := rfl

theorem created_deactivate (c : Connection) (e : ConnError) :
    (c.deactivate e).createdChannels = c.createdChannels := by
  unfold Connection.deactivate; split <;> rfl

theorem created_close (c : Connection) : c.close.createdChannels = c.createdChannels := by
  unfold Connection.close
  simp [created_cancelStatus, created_activate]

theorem created_fail (c : Connection) (m k : String) :
    (c.fail m k).createdChannels = c.createdChannels := by
  unfold Connection.fail
  simp [created_close, created_deactivate]

theorem created_bindChannel (c : Connection) (ch : Nat) :
    (c.bindChannel ch).createdChannels = c.createdChannels := by
  unfold Connection.bindChannel
  rcases h : c.channel with _ | a <;> simp [h, created_fail]

theorem created_step_eq (e : Ev) (c : Connection) (hne : e ≠ Ev.callCreateOffer) :
    (step c e).createdChannels = c.createdChannels := by
  cases e with
  | iceGatheringStateChange gs sctp =>
    cases gs <;> cases sctp <;>
      simp_all [step, Connection.iceGatheringStateChange, created_activate, created_fail,
        created_cancelStatus] <;> split_ifs <;>
      simp_all [created_activate, created_cancelStatus]
  | negotiationNeeded =>
    simp only [step, Connection.negotiationNeeded]
    split_ifs <;> simp_all [created_activate]
  | iceCandidateError => simp_all [step]
  | connectionStateChange cs =>
    cases cs <;> simp_all [step, Connection.connectionStateChange, created_activate,
      created_cancelStatus]
  | dataChannel ch2 => simp [step, created_bindChannel]
  | channelOpen ch2 =>
    simp only [step, Connection.channelOpen]
    split_ifs <;> simp_all [created_activate]
  | channelMessage ch2 d =>
    simp only [step, Connection.channelMessage]
    split_ifs <;> simp_all
  | channelError ch2 m =>
    simp only [step, Connection.channelError]
    split_ifs <;> simp_all [created_fail]
  | channelClose ch2 =>
    simp only [step, Connection.channelClose]
    split_ifs <;> simp_all [created_close]
  | callClose => simp_all [step, created_close]
  | callCreateOffer => simp_all
  | callAcceptSDP ok =>
    simp only [step, Connection.acceptSDP]
    split_ifs <;> simp_all [created_fail]
  | callCreateSDPReject => simp_all [step, created_fail]

theorem bindChannel_channel_of_none (c : Connection) (ch : Nat) (h : c.channel = none) :
    (c.bindChannel ch).channel = some ch := by
  simp [Connection.bindChannel, h]

theorem channel_none_back (e : Ev) (c : Connection) (h : (step c e).channel = none) :
    c.channel = none := by
  rcases hc : c.channel with _ | a
  · rfl
  · exact absurd h (by simp [channel_step_mono e c a hc])

theorem created_inv_step (e : Ev) (c : Connection)
    (h1 : c.createdChannels ≤ 1) (h2 : c.channel = none → c.createdChannels = 0) :
    (step c e).createdChannels ≤ 1
    ∧ ((step c e).channel = none → (step c e).createdChannels = 0) := by
  by_cases he : e = Ev.callCreateOffer
  · subst he
    rcases hch : c.channel with _ | a
    · have h0 := h2 hch
      constructor
      · simp [step, Connection.createOffer, hch, created_bindChannel, h0]
      · intro hnone
        exact absurd hnone (by
          simp [step, Connection.createOffer, hch]
          rw [bindChannel_channel_of_none _ _ (by simp [hch])]
          simp)
    · constructor
      · simp [step, Connection.createOffer, hch, h1]
      · intro hnone
        have := channel_none_back _ _ hnone
        simp_all
  · have hc := created_step_eq e c he
    refine ⟨by omega, fun hnone => ?_⟩
    rw [hc]
    exact h2 (channel_none_back e c hnone)

theorem created_inv_run (evs : List Ev) (c : Connection)
    (h1 : c.createdChannels ≤ 1) (h2 : c.channel = none → c.createdChannels = 0) :
    (runEvents c evs).createdChannels ≤ 1
    ∧ ((runEvents c evs).channel = none → (runEvents c evs).createdChannels = 0) := by
  induction evs generalizing c with
  | nil => exact ⟨h1, h2⟩
  | cons e rest ih =>
    obtain ⟨g1, g2⟩ := created_inv_step e c h1 h2
    exact ih (step c e) g1 g2

theorem createOffer_fixed (c : Connection) (h : c.channel.isSome) : c.createOffer = c := by
  unfold Connection.createOffer
  rcases hc : c.channel with _ | a
  · simp [hc] at h
  · rfl

theorem run_replicate_offer_fixed (m : Nat) (c : Connection) (h : c.channel.isSome) :
    runEvents c (List.replicate m Ev.callCreateOffer) = c := by
  induction m generalizing c with
  | zero => rfl
  | succ k ih =>
    have : List.replicate (k + 1) Ev.callCreateOffer
        = Ev.callCreateOffer :: List.replicate k Ev.callCreateOffer := rfl
    rw [this]
    have hstep : step c Ev.callCreateOffer = c := createOffer_fixed c h
    show runEvents (step c Ev.callCreateOffer) (List.replicate k Ev.callCreateOffer) = c
    rw [hstep]
    exact ih c h

/-- Claim C2: over any sequence of operations and transport events, the
bound channel, once stored, never changes (at most one channel per
lifetime), at most one data channel is ever created locally, and any
positive number of `createOffer()` calls creates exactly one data channel
in total. -/
theorem at_most_one_channel_per_lifetime (evs1 evs2 : List Ev) (ch : Nat) (n : Nat) :
    ((runEvents initConnection evs1).channel = some ch →
      (runEvents initConnection (evs1 ++ evs2)).channel = some ch)
    ∧ (runEvents initConnection evs1).createdChannels ≤ 1
    ∧ (1 ≤ n →
        (runEvents initConnection (List.replicate n Ev.callCreateOffer)).createdChannels = 1) := by
  refine ⟨fun h => ?_, (created_inv_run evs1 initConnection (by decide) (by decide)).1, fun hn => ?_⟩
  · rw [runEvents_append]
    exact channel_run_mono evs2 _ ch h
  · obtain ⟨m, rfl⟩ : ∃ m, n = m + 1 := ⟨n - 1, by omega⟩
    have hrep : List.replicate (m + 1) Ev.callCreateOffer
        = Ev.callCreateOffer :: List.replicate m Ev.callCreateOffer := rfl
    rw [hrep]
    show (runEvents (step initConnection Ev.callCreateOffer)
      (List.replicate m Ev.callCreateOffer)).createdChannels = 1
    rw [run_replicate_offer_fixed m _ (by decide)]
    decide



@[simp] theorem wired_activate (c : Connection) (s : State) : (c.activate s).wired = c.wired := by
  unfold Connection.activate; split <;> rfl

@[simp] theorem wired_cancelStatus (c : Connection) : c.cancelStatus.wired = c.wired := rfl

@[simp] theorem wired_deactivate (c : Connection) (e : ConnError) :
    (c.deactivate e).wired = c.wired := by
  unfold Connection.deactivate; split <;> rfl

@[simp] theorem wired_close (c : Connection) : c.close.wired = c.wired := by
  unfold Connection.close
  simp

@[simp] theorem wired_fail (c : Connection) (m k : String) : (c.fail m k).wired = c.wired := by
  unfold Connection.fail
  simp

theorem state_activate (c : Connection) (s : State) :
    (c.activate s).state = if c.statusChange.terminal = none then s else c.state := by
  unfold Connection.activate; split <;> simp_all

theorem state_cancelStatus (c : Connection) : c.cancelStatus.state = c.state := rfl

theorem state_deactivate (c : Connection) (e : ConnError) :
    (c.deactivate e).state
      = if c.statusChange.terminal = none then State.OFFLINE else c.state := by
  unfold Connection.deactivate; split <;> simp_all

@[simp] theorem term_activate (c : Connection) (s : State) :
    (c.activate s).statusChange.terminal = c.statusChange.terminal := by
  unfold Connection.activate Emitter.activate; split <;> simp_all

@[simp] theorem term_cancelStatus_ne (c : Connection) :
    c.cancelStatus.statusChange.terminal ≠ none := by
  unfold Connection.cancelStatus Emitter.cancel; split <;> simp_all

@[simp] theorem term_deactivate_ne (c : Connection) (e : ConnError) :
    (c.deactivate e).statusChange.terminal ≠ none := by
  unfold Connection.deactivate Emitter.deactivate; split <;> simp_all

@[simp] theorem term_close_ne (c : Connection) :
    c.close.statusChange.terminal ≠ none := by
  unfold Connection.close
  simp

@[simp] theorem term_fail_ne (c : Connection) (m k : String) :
    (c.fail m k).statusChange.terminal ≠ none := by
  unfold Connection.fail
  simp

theorem state_close (c : Connection) :
    c.close.state = if c.statusChange.terminal = none then State.OFFLINE else c.state := by
  unfold Connection.close
  simp [state_cancelStatus, state_activate]

theorem state_fail (c : Connection) (m k : String) :
    (c.fail m k).state = if c.statusChange.terminal = none then State.OFFLINE else c.state := by
  by_cases h : c.statusChange.terminal = none
  · rw [Connection.fail, deactivate_live c _ h, state_close]
    simp [h]
  · rw [Connection.fail, deactivate_dead c _ h, state_close]

theorem conn_inv_step (e : Ev) (c : Connection)
    (h : c.channel.isSome ∨ (c.wired = [] ∧ c.state ≠ State.CONNECTED)) :
    (step c e).channel.isSome ∨ ((step c e).wired = [] ∧ (step c e).state ≠ State.CONNECTED) := by
  rcases h with h | ⟨hw, hs⟩
  · left
    obtain ⟨a, ha⟩ := Option.isSome_iff_exists.mp h
    have := channel_step_mono e c a ha
    simp [this]
  · cases e with
    | iceGatheringStateChange gs sctp =>
      right
      cases gs with
      | new =>
        refine ⟨?_, ?_⟩ <;> simp [step, Connection.iceGatheringStateChange, hw, hs]
      | gathering =>
        refine ⟨?_, ?_⟩ <;>
          simp [step, Connection.iceGatheringStateChange, state_activate, hw] <;>
          split_ifs <;> simp_all
      | complete =>
        cases sctp with
        | none =>
          refine ⟨?_, ?_⟩ <;>
            simp [step, Connection.iceGatheringStateChange, state_fail, hw] <;>
            split_ifs <;> simp_all
        | some s =>
          by_cases hcl : s.state = SctpState.closed <;>
            refine ⟨?_, ?_⟩ <;>
            simp [step, Connection.iceGatheringStateChange, hcl, state_activate,
              state_cancelStatus, hw] <;>
            split_ifs <;> simp_all
    | negotiationNeeded =>
      right
      simp only [step, Connection.negotiationNeeded]
      split_ifs with h1
      · refine ⟨by simp [hw], ?_⟩
        rw [state_activate]
        split_ifs <;> simp_all
      · exact ⟨hw, hs⟩
    | iceCandidateError => right; exact ⟨by simp [step, hw], by simp [step, hs]⟩
    | connectionStateChange cs =>
      right
      cases cs <;>
        refine ⟨?_, ?_⟩ <;>
        simp [step, Connection.connectionStateChange, state_activate, state_cancelStatus,
          hw, hs] <;>
        split_ifs <;> simp_all
    | dataChannel ch2 =>
      left
      rcases hc : c.channel with _ | a
      · simp [step, bindChannel_channel_of_none c ch2 hc]
      · have := channel_step_mono (Ev.dataChannel ch2) c a hc
        simp_all [step]
    | channelOpen ch2 =>
      right
      simp only [step, Connection.channelOpen, Connection.deliverable, hw]
      simp_all
    | channelMessage ch2 d =>
      right
      simp only [step, Connection.channelMessage, Connection.deliverable, hw]
      simp_all
    | channelError ch2 m =>
      right
      simp only [step, Connection.channelError, Connection.deliverable, hw]
      simp_all
    | channelClose ch2 =>
      right
      simp only [step, Connection.channelClose, Connection.deliverable, hw]
      simp_all
    | callClose =>
      right
      refine ⟨by simp [step, hw], ?_⟩
      simp only [step]
      rw [state_close]
      split_ifs <;> simp_all
    | callCreateOffer =>
      left
      rcases hc : c.channel with _ | a
      · simp only [step, Connection.createOffer, hc]
        rw [bindChannel_channel_of_none _ _ (by simp [hc])]
        simp
      · have := channel_step_mono Ev.callCreateOffer c a hc
        simp_all [step]
    | callAcceptSDP ok =>
      right
      simp only [step, Connection.acceptSDP]
      split_ifs
      · exact ⟨hw, hs⟩
      · refine ⟨by simp [hw], ?_⟩
        rw [state_fail]
        split_ifs <;> simp_all
    | callCreateSDPReject =>
      right
      refine ⟨by simp [step, hw], ?_⟩
      simp only [step]
      rw [state_fail]
      split_ifs <;> simp_all


theorem conn_inv_run (evs : List Ev) (c : Connection)
    (h : c.channel.isSome ∨ (c.wired = [] ∧ c.state ≠ State.CONNECTED)) :
    (runEvents c evs).channel.isSome
    ∨ ((runEvents c evs).wired = [] ∧ (runEvents c evs).state ≠ State.CONNECTED) := by
  induction evs generalizing c with
  | nil => exact h
  | cons e rest ih => exact ih (step c e) (conn_inv_step e c h)

theorem reachable_connected_channel (c : Connection) (hr : Reachable c)
    (hc : c.state = State.CONNECTED) : ∃ ch, c.channel = some ch := by
  obtain ⟨evs, rfl⟩ := hr
  rcases conn_inv_run evs initConnection (by decide) with h | ⟨_, hne⟩
  · exact Option.isSome_iff_exists.mp h
  · exact absurd hc hne

/-- Claim C5: on a reachable connection whose transport advertises a
message-transport descriptor, `send(payload)` throws if and only if the
state is not `CONNECTED`, the computed payload size is `0`, or the size
exceeds the advertised maximum; for sizes in `[1, max]` while `CONNECTED`
the payload is handed to the bound channel without error. -/
theorem send_error_characterization (c : Connection) (hr : Reachable c) (s : Sctp) (hs : c.sctp = some s)
    (d : Sendable) :
    ((∃ e, c.send d = Except.error e)
      ↔ (c.state ≠ State.CONNECTED ∨ d.size = 0 ∨ s.maxMessageSize < d.size))
    ∧ (c.state = State.CONNECTED → 1 ≤ d.size → d.size ≤ s.maxMessageSize →
        ∃ ch, c.channel = some ch ∧ c.send d = Except.ok (ch, d)) := by
  by_cases hst : c.state = State.CONNECTED
  · obtain ⟨ch, hch⟩ := reachable_connected_channel c hr hst
    refine ⟨⟨?_, ?_⟩, ?_⟩
    · rintro ⟨e, he⟩
      simp only [Connection.send, hst, hs, hch] at he
      rw [if_neg (by simp [hst])] at he
      split_ifs at he with hsz
      rcases hsz with h1 | h2
      · exact Or.inr (Or.inl (by omega))
      · exact Or.inr (Or.inr h2)
    · rintro (h | h | h)
      · exact absurd hst h
      · refine ⟨"Attempted to send out of the supported size range.", ?_⟩
        simp only [Connection.send, hs]
        rw [if_neg (by simp [hst])]
        rw [if_pos (Or.inl (by omega))]
      · refine ⟨"Attempted to send out of the supported size range.", ?_⟩
        simp only [Connection.send, hs]
        rw [if_neg (by simp [hst])]
        rw [if_pos (Or.inr h)]
    · intro _ h1 h2
      refine ⟨ch, hch, ?_⟩
      simp only [Connection.send, hs, hch]
      rw [if_neg (by simp [hst])]
      rw [if_neg (by omega)]
  · refine ⟨⟨fun _ => Or.inl hst, fun _ => ?_⟩, fun h => absurd h hst⟩
    refine ⟨"Unable to send data before a channel has been established.", ?_⟩
    simp [Connection.send, hst]


@[simp] theorem pub_cancelStatus (c : Connection) :
    c.cancelStatus.statusChange.published = c.statusChange.published := by
  unfold Connection.cancelStatus Emitter.cancel; split <;> rfl

@[simp] theorem pub_deactivate (c : Connection) (e : ConnError) :
    (c.deactivate e).statusChange.published = c.statusChange.published := by
  unfold Connection.deactivate Emitter.deactivate; split <;> rfl

theorem pub_activate (c : Connection) (s : State) :
    (c.activate s).statusChange.published
      = if c.statusChange.terminal = none then c.statusChange.published ++ [s]
        else c.statusChange.published := by
  unfold Connection.activate Emitter.activate; split <;> simp_all

theorem pub_close (c : Connection) :
    c.close.statusChange.published
      = if c.statusChange.terminal = none then c.statusChange.published ++ [State.OFFLINE]
        else c.statusChange.published := by
  unfold Connection.close
  simp [pub_activate]

theorem term_close (c : Connection) :
    c.close.statusChange.terminal
      = if c.statusChange.terminal = none then some EmitterEnd.cancelled
        else c.statusChange.terminal := by
  unfold Connection.close Connection.cancelStatus Emitter.cancel
  split_ifs <;> simp_all

@[simp] theorem pub_fail (c : Connection) (m k : String) :
    (c.fail m k).statusChange.published = c.statusChange.published := by
  unfold Connection.fail
  rw [pub_close]
  by_cases h : c.statusChange.terminal = none
  · rw [if_neg (by simp)]
    simp
  · rw [deactivate_dead c _ h, if_neg h]

theorem term_fail (c : Connection) (m k : String) :
    (c.fail m k).statusChange.terminal
      = if c.statusChange.terminal = none
        then some (EmitterEnd.deactivated { cause := k, layman := m, warnings := c.warnings })
        else c.statusChange.terminal := by
  unfold Connection.fail
  rw [term_close]
  by_cases h : c.statusChange.terminal = none
  · rw [if_pos h, deactivate_live c _ h]
    simp
  · rw [deactivate_dead c _ h, if_neg h, if_neg h]

@[simp] theorem pub_bindChannel (c : Connection) (ch : Nat) :
    (c.bindChannel ch).statusChange.published = c.statusChange.published := by
  unfold Connection.bindChannel
  rcases h : c.channel with _ | a <;> simp [h]

theorem term_bindChannel_none (c : Connection) (ch : Nat) (h : c.channel = none) :
    (c.bindChannel ch).statusChange.terminal = c.statusChange.terminal := by
  unfold Connection.bindChannel
  simp [h]

theorem term_bindChannel_some (c : Connection) (ch a : Nat) (h : c.channel = some a) :
    (c.bindChannel ch).statusChange.terminal
      = (c.fail "Can not rebind a new data channel."
          "Can not rebind a new data channel.").statusChange.terminal := by
  unfold Connection.bindChannel
  simp [h]

@[simp] theorem pub_createOffer (c : Connection) :
    c.createOffer.statusChange.published = c.statusChange.published := by
  unfold Connection.createOffer
  rcases h : c.channel with _ | a <;> simp [h]

theorem term_mono_step (e : Ev) (c : Connection)
    (h : (step c e).statusChange.terminal = none) : c.statusChange.terminal = none := by
  cases e with
  | iceGatheringStateChange gs sctp =>
    rcases sctp with _ | s <;> cases gs <;>
      simp_all [step, Connection.iceGatheringStateChange, term_fail] <;>
      split_ifs at h <;> simp_all
  | negotiationNeeded =>
    simp only [step, Connection.negotiationNeeded] at h
    split_ifs at h <;> simp_all
  | iceCandidateError => simp_all [step]
  | connectionStateChange cs =>
    cases cs <;> simp_all [step, Connection.connectionStateChange]
  | dataChannel ch2 =>
    rcases hc : c.channel with _ | a
    · rwa [step, term_bindChannel_none c ch2 hc] at h
    · rw [step, term_bindChannel_some c ch2 a hc] at h
      exact absurd h (by simp)
  | channelOpen ch2 =>
    simp only [step, Connection.channelOpen] at h
    split_ifs at h <;> simp_all
  | channelMessage ch2 d =>
    simp only [step, Connection.channelMessage] at h
    split_ifs at h <;> simp_all
  | channelError ch2 m =>
    simp only [step, Connection.channelError] at h
    split_ifs at h <;> simp_all
  | channelClose ch2 =>
    simp only [step, Connection.channelClose] at h
    split_ifs at h <;> simp_all [term_close] <;> split_ifs at h <;> simp_all
  | callClose => simp_all [step, term_close] ; split_ifs at h <;> simp_all
  | callCreateOffer =>
    simp only [step, Connection.createOffer] at h
    rcases hc : c.channel with _ | a
    · simp only [hc] at h
      rwa [term_bindChannel_none _ _ (by simp [hc])] at h
    · simp_all
  | callAcceptSDP ok =>
    simp only [step, Connection.acceptSDP] at h
    split_ifs at h <;> simp_all
  | callCreateSDPReject => simp_all [step]



theorem mem_pub_mono (e : Ev) (c : Connection) (x : State)
    (h : x ∈ c.statusChange.published) : x ∈ (step c e).statusChange.published := by
  cases e with
  | iceGatheringStateChange gs sctp =>
    rcases sctp with _ | s <;> cases gs <;>
      simp_all [step, Connection.iceGatheringStateChange, pub_activate] <;>
      split_ifs <;> simp_all [pub_activate] <;> split_ifs <;> simp_all
  | negotiationNeeded =>
    simp only [step, Connection.negotiationNeeded]
    split_ifs <;> simp_all [pub_activate] <;> split_ifs <;> simp_all
  | iceCandidateError => simp_all [step]
  | connectionStateChange cs =>
    cases cs <;> simp_all [step, Connection.connectionStateChange, pub_activate] <;>
      split_ifs <;> simp_all
  | dataChannel ch2 => simp_all [step]
  | channelOpen ch2 =>
    simp only [step, Connection.channelOpen]
    split_ifs <;> simp_all [pub_activate] <;> split_ifs <;> simp_all
  | channelMessage ch2 d =>
    simp only [step, Connection.channelMessage]
    split_ifs <;> simp_all
  | channelError ch2 m =>
    simp only [step, Connection.channelError]
    split_ifs <;> simp_all
  | channelClose ch2 =>
    simp only [step, Connection.channelClose]
    split_ifs <;> simp_all [pub_close] <;> split_ifs <;> simp_all
  | callClose => simp_all [step, pub_close] ; split_ifs <;> simp_all
  | callCreateOffer => simp_all [step]
  | callAcceptSDP ok =>
    simp only [step, Connection.acceptSDP]
    split_ifs <;> simp_all
  | callCreateSDPReject => simp_all [step]

theorem connected_new (e : Ev) (c : Connection)
    (h : State.CONNECTED ∈ (step c e).statusChange.published) :
    State.CONNECTED ∈ c.statusChange.published
    ∨ (isChannelOpen e = true ∧ c.statusChange.terminal = none) := by
  cases e with
  | iceGatheringStateChange gs sctp =>
    left
    rcases sctp with _ | s <;> cases gs <;>
      simp_all [step, Connection.iceGatheringStateChange, pub_activate] <;>
      split_ifs at h <;> simp_all [pub_activate] <;> split_ifs at h <;> simp_all
  | negotiationNeeded =>
    left
    simp only [step, Connection.negotiationNeeded] at h
    split_ifs at h <;> simp_all [pub_activate] <;> split_ifs at h <;> simp_all
  | iceCandidateError => left; simp_all [step]
  | connectionStateChange cs =>
    left
    cases cs <;> simp_all [step, Connection.connectionStateChange, pub_activate] <;>
      split_ifs at h <;> simp_all
  | dataChannel ch2 => left; simp_all [step]
  | channelOpen ch2 =>
    simp only [step, Connection.channelOpen] at h
    split_ifs at h with hd
    · rw [pub_activate] at h
      split_ifs at h with ht
      · rcases List.mem_append.mp h with hin | _
        · exact Or.inl hin
        · exact Or.inr ⟨rfl, ht⟩
      · exact Or.inl h
    · exact Or.inl h
  | channelMessage ch2 d =>
    left
    simp only [step, Connection.channelMessage] at h
    split_ifs at h <;> simp_all
  | channelError ch2 m =>
    left
    simp only [step, Connection.channelError] at h
    split_ifs at h <;> simp_all
  | channelClose ch2 =>
    left
    simp only [step, Connection.channelClose] at h
    split_ifs at h <;> simp_all [pub_close] <;> split_ifs at h <;> simp_all
  | callClose => left; simp_all [step, pub_close] ; split_ifs at h <;> simp_all
  | callCreateOffer => left; simp_all [step]
  | callAcceptSDP ok =>
    left
    simp only [step, Connection.acceptSDP] at h
    split_ifs at h <;> simp_all
  | callCreateSDPReject => left; simp_all [step]

theorem healthy_shape (e : Ev) (h : isHealthyComplete e = true) :
    ∃ s : Sctp, e = Ev.iceGatheringStateChange IceGatheringState.complete (some s)
      ∧ s.state ≠ SctpState.closed := by
  cases e with
  | iceGatheringStateChange gs sctp =>
    cases gs <;> rcases sctp with _ | s <;> simp_all [isHealthyComplete]
  | negotiationNeeded => simp [isHealthyComplete] at h
  | iceCandidateError => simp [isHealthyComplete] at h
  | connectionStateChange cs => simp [isHealthyComplete] at h
  | dataChannel ch => simp [isHealthyComplete] at h
  | channelOpen ch => simp [isHealthyComplete] at h
  | channelMessage ch d => simp [isHealthyComplete] at h
  | channelError ch m => simp [isHealthyComplete] at h
  | channelClose ch => simp [isHealthyComplete] at h
  | callClose => simp [isHealthyComplete] at h
  | callCreateOffer => simp [isHealthyComplete] at h
  | callAcceptSDP ok => simp [isHealthyComplete] at h
  | callCreateSDPReject => simp [isHealthyComplete] at h

theorem healthy_ready_step (e : Ev) (c : Connection) (hh : isHealthyComplete e = true)
    (ht : (step c e).statusChange.terminal = none) :
    State.READY ∈ (step c e).statusChange.published := by
  have hterm := term_mono_step e c ht
  obtain ⟨s, rfl, hs⟩ := healthy_shape e hh
  simp [step, Connection.iceGatheringStateChange, hs, pub_activate, hterm]



theorem J_step (e : Ev) (b : Bool) (c : Connection)
    (hguard : isChannelOpen e = true → b = true)
    (h1 : State.CONNECTED ∈ c.statusChange.published →
      State.READY ∈ c.statusChange.published)
    (h2 : b = true → c.statusChange.terminal = none →
      State.READY ∈ c.statusChange.published) :
    (State.CONNECTED ∈ (step c e).statusChange.published →
      State.READY ∈ (step c e).statusChange.published)
    ∧ ((b || isHealthyComplete e) = true → (step c e).statusChange.terminal = none →
        State.READY ∈ (step c e).statusChange.published) := by
  constructor
  · intro hc
    rcases connected_new e c hc with hin | ⟨hopen, hlive⟩
    · exact mem_pub_mono e c _ (h1 hin)
    · exact mem_pub_mono e c _ (h2 (hguard hopen) hlive)
  · intro hb ht
    rw [Bool.or_eq_true] at hb
    rcases hb with hb | hh
    · exact mem_pub_mono e c _ (h2 hb (term_mono_step e c ht))
    · exact healthy_ready_step e c hh ht

theorem J_run (evs : List Ev) (b : Bool) (c : Connection)
    (hg : guarded b evs = true)
    (h1 : State.CONNECTED ∈ c.statusChange.published →
      State.READY ∈ c.statusChange.published)
    (h2 : b = true → c.statusChange.terminal = none →
      State.READY ∈ c.statusChange.published) :
    State.CONNECTED ∈ (runEvents c evs).statusChange.published →
      State.READY ∈ (runEvents c evs).statusChange.published := by
  induction evs generalizing b c with
  | nil => exact h1
  | cons e rest ih =>
    simp only [guarded, Bool.and_eq_true] at hg
    obtain ⟨hge, hgr⟩ := hg
    have hguard : isChannelOpen e = true → b = true := by
      intro ho
      simpa [ho] using hge
    obtain ⟨k1, k2⟩ := J_step e b c hguard h1 h2
    exact ih (b || isHealthyComplete e) (step c e) hgr k1 k2

theorem guarded_take (b : Bool) (l : List Ev) (n : Nat) (h : guarded b l = true) :
    guarded b (l.take n) = true := by
  induction l generalizing b n with
  | nil => simp [List.take_nil, guarded]
  | cons e rest ih =>
    cases n with
    | zero => rfl
    | succ m =>
      simp only [List.take, guarded, Bool.and_eq_true] at h ⊢
      exact ⟨h.1, ih (b || isHealthyComplete e) m h.2⟩

/-- Claim C1 (amended): for every trace in which each channel-open event is
preceded by a gathering-complete notification with a present, non-closed
message-transport descriptor, `CONNECTED` is published only after `READY`:
every prefix of the run whose published status values contain `CONNECTED`
already contains `READY` (publication is append-only, so `READY` precedes
the first `CONNECTED`). -/
theorem connected_only_after_ready_when_open_follows_gathering (evs : List Ev) (hg : guarded false evs = true) (n : Nat)
    (hc : State.CONNECTED ∈ (runEvents initConnection (evs.take n)).statusChange.published) :
    State.READY ∈ (runEvents initConnection (evs.take n)).statusChange.published :=
  J_run (evs.take n) false initConnection (guarded_take false evs n hg)
    (fun h => absurd h (by decide)) (fun hb => by simp at hb) hc

/-- Witness for C1 at a concrete guarded trace reaching CONNECTED. -/
theorem connected_only_after_ready_when_open_follows_gathering_witness :
    State.READY ∈ (runEvents initConnection
      (List.take 3 [Ev.iceGatheringStateChange IceGatheringState.complete
          (some { state := SctpState.connected, maxMessageSize := 9 }),
        Ev.dataChannel 0, Ev.channelOpen 0])).statusChange.published :=
  connected_only_after_ready_when_open_follows_gathering _ (by decide) 3 (by decide)


@[simp] theorem cc_activate (c : Connection) (s : State) :
    (c.activate s).connectionClosed = c.connectionClosed := by
  unfold Connection.activate; split <;> rfl

@[simp] theorem cc_cancelStatus (c : Connection) :
    c.cancelStatus.connectionClosed = c.connectionClosed := rfl

@[simp] theorem cc_deactivate (c : Connection) (e : ConnError) :
    (c.deactivate e).connectionClosed = c.connectionClosed := by
  unfold Connection.deactivate; split <;> rfl

@[simp] theorem cc_close (c : Connection) : c.close.connectionClosed = true := rfl

@[simp] theorem cc_fail (c : Connection) (m k : String) :
    (c.fail m k).connectionClosed = true := rfl

@[simp] theorem msg_activate (c : Connection) (s : State) :
    (c.activate s).message = c.message := by
  unfold Connection.activate; split <;> rfl

@[simp] theorem msg_cancelStatus (c : Connection) : c.cancelStatus.message = c.message := rfl

@[simp] theorem msg_deactivate (c : Connection) (e : ConnError) :
    (c.deactivate e).message = c.message := by
  unfold Connection.deactivate; split <;> rfl

@[simp] theorem msg_close (c : Connection) : c.close.message = c.message := by
  unfold Connection.close
  simp

@[simp] theorem closedCh_activate (c : Connection) (s : State) :
    (c.activate s).closedChannels = c.closedChannels := by
  unfold Connection.activate; split <;> rfl

@[simp] theorem closedCh_cancelStatus (c : Connection) :
    c.cancelStatus.closedChannels = c.closedChannels := rfl

theorem closedCh_close_mem (c : Connection) (ch : Nat) (h : c.channel = some ch) :
    ch ∈ c.close.closedChannels := by
  unfold Connection.close
  simp only [closedCh_cancelStatus, closedCh_activate, channel_cancelStatus, channel_activate, h]
  exact (mem_pushUnique _ _ _).mpr (Or.inr rfl)

theorem warnings_activate (c : Connection) (s : State) :
    (c.activate s).warnings = c.warnings := by
  unfold Connection.activate; split <;> rfl

theorem state_bindChannel_some (c : Connection) (ch a : Nat) (h1 : c.channel = some a)
    (h2 : c.statusChange.terminal = none) :
    (c.bindChannel ch).state = State.OFFLINE := by
  unfold Connection.bindChannel
  simp only [h1]
  rw [state_fail]
  simp [h2]

/-- Claim C4 (amended): when gathering becomes complete on a live status
stream: a missing message-transport descriptor is a fatal failure (stream
deactivated with the diagnostic error carrying the accumulated warnings,
transport torn down); a present, non-closed descriptor publishes `READY`;
a present but closed descriptor publishes `OFFLINE` and terminates the
stream with terminal success — graceful, with no teardown and no `READY` —
rather than the fatal failure the original claim states. -/
theorem gathering_complete_outcomes (c : Connection) (h : c.statusChange.terminal = none) :
    ((step c (Ev.iceGatheringStateChange IceGatheringState.complete none)).statusChange.terminal
        = some (EmitterEnd.deactivated
            { cause := "STCP Transport protocol should be set once gathering state is complete"
              layman := "STCP Transport protocol should be set once gathering state is complete"
              warnings := c.warnings })
      ∧ (step c (Ev.iceGatheringStateChange IceGatheringState.complete none)).connectionClosed
          = true)
    ∧ (∀ s : Sctp, s.state ≠ SctpState.closed →
        (step c (Ev.iceGatheringStateChange IceGatheringState.complete
            (some s))).statusChange.published
          = c.statusChange.published ++ [State.READY]
        ∧ (step c (Ev.iceGatheringStateChange IceGatheringState.complete
            (some s))).statusChange.terminal = none
        ∧ (step c (Ev.iceGatheringStateChange IceGatheringState.complete
            (some s))).state = State.READY)
    ∧ (∀ s : Sctp, s.state = SctpState.closed →
        (step c (Ev.iceGatheringStateChange IceGatheringState.complete
            (some s))).statusChange.published
          = c.statusChange.published ++ [State.OFFLINE]
        ∧ (step c (Ev.iceGatheringStateChange IceGatheringState.complete
            (some s))).statusChange.terminal = some EmitterEnd.cancelled
        ∧ (step c (Ev.iceGatheringStateChange IceGatheringState.complete
            (some s))).connectionClosed = c.connectionClosed) := by
  refine ⟨⟨?_, ?_⟩, fun s hs => ⟨?_, ?_, ?_⟩, fun s hs => ⟨?_, ?_, ?_⟩⟩
  · simp only [step, Connection.iceGatheringStateChange]
    rw [term_fail]
    simp [h]
  · simp only [step, Connection.iceGatheringStateChange]
    simp
  · simp [step, Connection.iceGatheringStateChange, hs, pub_activate, h]
  · simp [step, Connection.iceGatheringStateChange, hs, h]
  · simp only [step, Connection.iceGatheringStateChange, if_neg hs]
    rw [state_activate]
    simp [h]
  · simp [step, Connection.iceGatheringStateChange, hs, pub_activate, h]
  · simp only [step, Connection.iceGatheringStateChange, if_pos hs]
    rw [term_activate]
    unfold Connection.cancelStatus Emitter.cancel
    simp [h]
  · simp only [step, Connection.iceGatheringStateChange, if_pos hs]
    rw [cc_activate]
    simp

/-- Claim C8 (amended): `close()` terminates the status stream (terminal
success when not already terminated, a prior failure terminal is kept),
closes the transport, and closes the bound channel so that no further
message payloads are delivered from it; the message stream itself, however,
is left untouched — it is never cancelled by `close()`. -/
theorem close_terminates_status_not_message (c : Connection) :
    (c.close.statusChange.terminal
        = if c.statusChange.terminal = none then some EmitterEnd.cancelled
          else c.statusChange.terminal)
    ∧ c.close.message = c.message
    ∧ c.close.connectionClosed = true
    ∧ (∀ ch, c.channel = some ch → ch ∈ c.close.closedChannels)
    ∧ (∀ ch d, c.channel = some ch →
        step c.close (Ev.channelMessage ch d) = c.close) := by
  refine ⟨term_close c, msg_close c, cc_close c, fun ch h => closedCh_close_mem c ch h,
    fun ch d h => ?_⟩
  have hmem : ch ∈ c.close.closedChannels := closedCh_close_mem c ch h
  simp only [step, Connection.channelMessage, Connection.deliverable]
  rw [if_neg]
  simp [hmem]



/-! ## Claim theorems -/

/-- Claim C1 (counterexample): the claim as stated is false.  The transport
events are asynchronous and nothing in the code orders a channel-open event
after gathering completion: delivering an inbound data channel and then its
open event publishes `CONNECTED` on a status stream that never carried
`READY`. -/
theorem connected_published_without_ready :
    State.CONNECTED ∈ (runEvents initConnection
        [Ev.dataChannel 0, Ev.channelOpen 0]).statusChange.published
    ∧ State.READY ∉ (runEvents initConnection
        [Ev.dataChannel 0, Ev.channelOpen 0]).statusChange.published := by
  decide

/-- Claim C3: evaluation of the code at the claim's failing input.  With the
connection in state `READY` (after a healthy gathering-complete event), a
negotiation-needed notification only records a warning: it does not invoke
`close()` (the transport stays open, the status stream stays live and
publishes nothing) — contradicting the claim (and the handler's own doc
comment, "Close if we have already gone too far in the process"). -/
theorem negotiation_needed_when_ready_only_warns :
    (runEvents initConnection [Ev.iceGatheringStateChange IceGatheringState.complete
        (some { state := SctpState.connected, maxMessageSize := 100 })]).state = State.READY
    ∧ (runEvents initConnection [Ev.iceGatheringStateChange IceGatheringState.complete
        (some { state := SctpState.connected, maxMessageSize := 100 }),
        Ev.negotiationNeeded]).connectionClosed = false
    ∧ (runEvents initConnection [Ev.iceGatheringStateChange IceGatheringState.complete
        (some { state := SctpState.connected, maxMessageSize := 100 }),
        Ev.negotiationNeeded]).statusChange.terminal = none
    ∧ (runEvents initConnection [Ev.iceGatheringStateChange IceGatheringState.complete
        (some { state := SctpState.connected, maxMessageSize := 100 }),
        Ev.negotiationNeeded]).warnings
        = [Warning.negotiationUnexpected State.READY]
    ∧ (runEvents initConnection [Ev.iceGatheringStateChange IceGatheringState.complete
        (some { state := SctpState.connected, maxMessageSize := 100 }),
        Ev.negotiationNeeded]).statusChange.published = [State.READY] := by
  decide

/-- Claim C4 (counterexample): the claim as stated is false.  When gathering
completes with a present but closed message-transport descriptor, the code
publishes `OFFLINE` and terminates the status stream with terminal success
(`cancel`), not a fatal failure, and performs no transport teardown; `READY`
is not published. -/
theorem gathering_complete_closed_descriptor_not_fatal :
    (runEvents initConnection [Ev.iceGatheringStateChange IceGatheringState.complete
        (some { state := SctpState.closed, maxMessageSize := 100 })]).statusChange.terminal
      = some EmitterEnd.cancelled
    ∧ State.READY ∉ (runEvents initConnection
        [Ev.iceGatheringStateChange IceGatheringState.complete
          (some { state := SctpState.closed, maxMessageSize := 100 })]).statusChange.published
    ∧ (runEvents initConnection [Ev.iceGatheringStateChange IceGatheringState.complete
        (some { state := SctpState.closed, maxMessageSize := 100 })]).connectionClosed
      = false := by
  decide

/-- Claim C6: `close()` is idempotent from every state: a second invocation
changes nothing — the status stream, the streams' contents, the channel and
transport teardown flags are all identical to a single invocation. -/
theorem close_idempotent (c : Connection) : c.close.close = c.close := by
  obtain ⟨st, ch, w, ⟨pub, term⟩, msg, wires, bta, cc, cx, sc, ld, rd, sla, nid, crt⟩ := c
  cases term <;> cases ch <;>
    simp [Connection.close, Connection.activate, Connection.cancelStatus,
      Emitter.activate, Emitter.cancel, pushUnique] <;>
    split <;> simp_all

/-- Claim C7: binding a second data channel while one is bound (and the
status stream is live) is fatal from every state: the status stream is
terminated with the rebind failure carrying the accumulated warnings, the
internal state ends up `OFFLINE`, and the originally bound channel is
neither dropped nor overwritten. -/
theorem second_bind_always_fatal (c : Connection) (ch ch2 : Nat)
    (h1 : c.channel = some ch) (h2 : c.statusChange.terminal = none) :
    (c.bindChannel ch2).statusChange.terminal
        = some (EmitterEnd.deactivated
            { cause := "Can not rebind a new data channel."
              layman := "Can not rebind a new data channel."
              warnings := c.warnings })
    ∧ (c.bindChannel ch2).state = State.OFFLINE
    ∧ (c.bindChannel ch2).channel = some ch := by
  simp [Connection.bindChannel, Connection.fail, Connection.deactivate, Connection.close,
    Connection.activate, Connection.cancelStatus, Emitter.deactivate, Emitter.activate,
    Emitter.cancel, h1, h2]

/-- Witness for C7 at a concrete reachable connection with a bound channel. -/
theorem second_bind_always_fatal_witness :
    ((runEvents initConnection [Ev.dataChannel 0]).bindChannel 1).statusChange.terminal
        = some (EmitterEnd.deactivated
            { cause := "Can not rebind a new data channel."
              layman := "Can not rebind a new data channel."
              warnings := (runEvents initConnection [Ev.dataChannel 0]).warnings })
    ∧ ((runEvents initConnection [Ev.dataChannel 0]).bindChannel 1).state = State.OFFLINE
    ∧ ((runEvents initConnection [Ev.dataChannel 0]).bindChannel 1).channel = some 0 :=
  second_bind_always_fatal (runEvents initConnection [Ev.dataChannel 0]) 0 1
    (by decide) (by decide)

/-- Claim C8 (counterexample): the claim as stated is false.  `close()`
cancels only the status stream; the message stream's emitter is never
terminated — after closing a fresh connection the status stream has ended in
terminal success while the message stream has not ended at all. -/
theorem close_never_cancels_message_stream :
    (Connection.close initConnection).statusChange.terminal = some EmitterEnd.cancelled
    ∧ (Connection.close initConnection).message.cancelled = false := by
  decide

/-- Claim C9: when `createSDP` runs with the state neither `OFFLINE` nor
`CAN_OFFER` (i.e. `CONNECTING`, `READY` or `CONNECTED`), it creates no
description, waits on nothing, and immediately returns the transport's
current local description. -/
theorem createSDP_immediate_past_offer_states (c : Connection)
    (h : c.state = State.CONNECTING ∨ c.state = State.READY ∨ c.state = State.CONNECTED) :
    c.createSDP = SDPBehavior.immediate c.localDescription := by
  rcases h with h | h | h <;> simp [Connection.createSDP, h]

/-- Witness for C9 at a concrete reachable connection in state CONNECTING. -/
theorem createSDP_immediate_past_offer_states_witness :
    (runEvents initConnection
        [Ev.iceGatheringStateChange IceGatheringState.gathering none]).createSDP
      = SDPBehavior.immediate (runEvents initConnection
          [Ev.iceGatheringStateChange IceGatheringState.gathering none]).localDescription :=
  createSDP_immediate_past_offer_states _ (Or.inl (by decide))

/-- Claim C10: the duplicate-bind reject path is not atomic.  Even when the
second channel is rejected as a fatal violation, the code still forces its
binary type, attaches the four listeners to it (so its events feed the
connection's streams: a message event on the rejected channel is published
on the message stream) and its close event invokes the connection's
`close()`; the bound channel is not overwritten. -/
theorem rejected_bind_still_wires_channel (c : Connection) (ch ch2 : Nat)
    (h1 : c.channel = some ch) (hne : ch2 ≠ ch) (hnc : ch2 ∉ c.closedChannels) :
    ch2 ∈ (c.bindChannel ch2).wired
    ∧ ch2 ∈ (c.bindChannel ch2).binaryTypeArraybuffer
    ∧ (c.bindChannel ch2).channel = some ch
    ∧ (∀ d, c.message.cancelled = false →
        (step (c.bindChannel ch2) (Ev.channelMessage ch2 d)).message.published
          = (c.bindChannel ch2).message.published ++ [d])
    ∧ step (c.bindChannel ch2) (Ev.channelClose ch2) = (c.bindChannel ch2).close := by
  obtain ⟨st, cch, w, ⟨pub, term⟩, ⟨mpub, mcan⟩, wires, bta, cc, cx, sc, ld, rd, sla, nid, crt⟩ := c
  simp only [Connection.channel] at h1
  subst h1
  simp only [Connection.closedChannels] at hnc
  cases term <;> by_cases hw : ch2 ∈ wires <;> by_cases hbta : ch2 ∈ bta <;>
      by_cases hc : ch ∈ cc <;>
    simp_all [Connection.bindChannel, Connection.fail, Connection.deactivate, Connection.close,
      Connection.activate, Connection.cancelStatus, Emitter.deactivate, Emitter.activate,
      Emitter.cancel, step, Connection.channelMessage, Connection.channelClose,
      Connection.deliverable, SafeEmitter.activate, pushUnique]

/-- Witness for C10 at a concrete reachable connection with a bound channel. -/
theorem rejected_bind_still_wires_channel_witness :
    1 ∈ ((runEvents initConnection [Ev.dataChannel 0]).bindChannel 1).wired
    ∧ step ((runEvents initConnection [Ev.dataChannel 0]).bindChannel 1) (Ev.channelClose 1)
        = ((runEvents initConnection [Ev.dataChannel 0]).bindChannel 1).close := by
  have h := rejected_bind_still_wires_channel (runEvents initConnection [Ev.dataChannel 0])
      0 1 (by decide) (by decide) (by decide)
  exact ⟨h.1, h.2.2.2.2⟩

/-- Witness for C2: after binding an inbound channel, a later close leaves
the same bound channel; two `createOffer()` calls create exactly one
channel. -/
theorem at_most_one_channel_per_lifetime_witness :
    (runEvents initConnection ([Ev.dataChannel 0] ++ [Ev.callClose])).channel = some 0
    ∧ (runEvents initConnection (List.replicate 2 Ev.callCreateOffer)).createdChannels = 1 :=
  ⟨(at_most_one_channel_per_lifetime [Ev.dataChannel 0] [Ev.callClose] 0 2).1 (by decide),
    (at_most_one_channel_per_lifetime [Ev.dataChannel 0] [Ev.callClose] 0 2).2.2 (by decide)⟩

/-- Witness for C4: on a fresh connection a healthy gathering-complete
publishes `READY`. -/
theorem gathering_complete_outcomes_witness :
    (step initConnection (Ev.iceGatheringStateChange IceGatheringState.complete
        (some { state := SctpState.connected, maxMessageSize := 9 }))).statusChange.published
      = initConnection.statusChange.published ++ [State.READY] :=
  ((gathering_complete_outcomes initConnection rfl).2.1
    { state := SctpState.connected, maxMessageSize := 9 } (by decide)).1

/-- Witness for C5: a two-character string is handed to the bound channel of
a reachable CONNECTED connection whose advertised maximum is 100. -/
theorem send_error_characterization_witness :
    ∃ ch, (runEvents initConnection
        [Ev.iceGatheringStateChange IceGatheringState.complete
            (some { state := SctpState.connected, maxMessageSize := 100 }),
          Ev.dataChannel 0, Ev.channelOpen 0]).channel = some ch
      ∧ (runEvents initConnection
          [Ev.iceGatheringStateChange IceGatheringState.complete
              (some { state := SctpState.connected, maxMessageSize := 100 }),
            Ev.dataChannel 0, Ev.channelOpen 0]).send (Sendable.str "hi")
          = Except.ok (ch, Sendable.str "hi") :=
  (send_error_characterization _
      ⟨[Ev.iceGatheringStateChange IceGatheringState.complete
          (some { state := SctpState.connected, maxMessageSize := 100 }),
        Ev.dataChannel 0, Ev.channelOpen 0], rfl⟩
      { state := SctpState.connected, maxMessageSize := 100 } (by decide)
      (Sendable.str "hi")).2 (by decide) (by decide) (by decide)

/-- Witness for C8: after closing a connection with a bound channel, a
message event on that channel delivers nothing. -/
theorem close_terminates_status_not_message_witness :
    step (Connection.close (runEvents initConnection [Ev.dataChannel 0]))
        (Ev.channelMessage 0 (Sendable.blob 1))
      = Connection.close (runEvents initConnection [Ev.dataChannel 0]) :=
  (close_terminates_status_not_message
    (runEvents initConnection [Ev.dataChannel 0])).2.2.2.2 0 (Sendable.blob 1) (by decide)


end EzRtc
